import Mathlib

/-!
Fisher-X dashboard core, shallow embedding.

This file embeds the data model and the operations of the Fisher-X
dashboard orchestration layer: the alert classifier (`getAlertLevel` in
the air-quality chart component), the city-search controller
(`handleSearch` / `handleInputChange` in citySearch.js), and the
dashboard data orchestrator (`fetchData`, the option-change handlers and
the polling effect in the dashboard page component).  Machine floats are
modelled as exact rationals; nullable JSON fields as `Option`; the
asynchronous completion of a fetch as an explicit state-transition
function applied at response-arrival time.
-/

namespace FisherX

/-! Alert classifier (AirQualityChart.getAlertLevel).  A tier mirrors one
entry of AQI_THRESHOLDS; `max := none` stands for the JS `Infinity`
sentinel bound. -/

structure Tier where
  level : String
  max : Option ℚ
  color : String
deriving DecidableEq

def pm25Thresholds : List Tier := [
  ⟨"Good", some 12, "#009E73"⟩,
  ⟨"Moderate", some (354/10), "#D5BF00"⟩,
  ⟨"Unhealthy for Sensitive", some (554/10), "#E67E22"⟩,
  ⟨"Unhealthy", some (1504/10), "#D13C4F"⟩,
  ⟨"Very Unhealthy", some (2504/10), "#7E3F8F"⟩,
  ⟨"Hazardous", none, "#5E1A1A"⟩ ]

def no2Thresholds : List Tier := [
  ⟨"Good", some 53, "#009E73"⟩,
  ⟨"Moderate", some 100, "#D5BF00"⟩,
  ⟨"Unhealthy for Sensitive", some 360, "#E67E22"⟩,
  ⟨"Unhealthy", some 649, "#D13C4F"⟩,
  ⟨"Very Unhealthy", some 1249, "#7E3F8F"⟩,
  ⟨"Hazardous", none, "#5E1A1A"⟩ ]

def AQI_THRESHOLDS (pollutant : String) : Option (List Tier) :=
  if pollutant = "pm25" then some pm25Thresholds
  else if pollutant = "no2" then some no2Thresholds
  else none

/-- The catalog actually scanned: `AQI_THRESHOLDS[pollutant] || AQI_THRESHOLDS.pm25`. -/
def thresholdsFor (pollutant : String) : List Tier :=
  (AQI_THRESHOLDS pollutant).getD pm25Thresholds

/-- The loop guard `value <= threshold.max`; `none` is `Infinity`, which every
rational is below. -/
def tierMatches (value : ℚ) (t : Tier) : Bool :=
  match t.max with
  | none => true
  | some m => decide (value ≤ m)

/-- `getAlertLevel`: first tier of the catalog whose bound admits the value;
the fallback return after the loop is the last catalog entry. -/
def getAlertLevel (pollutant : String) (value : ℚ) : Tier :=
  match (thresholdsFor pollutant).find? (tierMatches value) with
  | some t => t
  | none => (thresholdsFor pollutant).getLastD ⟨"Hazardous", none, "#5E1A1A"⟩

/-! City search (citySearch.js).  Geocoding results as delivered by the
proxy; the controller state mirrors the component's useState slots. -/

structure AddressComponent where
  long_name : String
  short_name : String
  types : List String
deriving DecidableEq

structure GeoResult where
  formatted_address : String
  place_id : String
  lat : ℚ
  lng : ℚ
  address_components : List AddressComponent
deriving DecidableEq

def NORTH_AMERICAN_COUNTRIES : List String := ["US", "CA", "MX"]

/-- `result.address_components.find(comp => comp.types.includes('country'))`. -/
def countryComponent (r : GeoResult) : Option AddressComponent :=
  r.address_components.find? (fun comp => comp.types.contains "country")

/-- The filter predicate of `handleSearch`: a country component exists and its
short name is in the allow-list. -/
def isNorthAmerican (r : GeoResult) : Bool :=
  match countryComponent r with
  | some c => NORTH_AMERICAN_COUNTRIES.contains c.short_name
  | none => false

/-- `data.results.filter(...).slice(0, 5)`. -/
def filteredResults (rs : List GeoResult) : List GeoResult :=
  (rs.filter isNorthAmerican).take 5

/-- A parsed response of the geocoding proxy as `handleSearch` consumes it. -/
structure GeoResponse where
  ok : Bool
  status : String
  results : List GeoResult
  errorMessage : Option String
deriving DecidableEq

structure SearchState where
  searchQuery : String
  suggestions : List GeoResult
  showSuggestions : Bool
  error : Option String
  loading : Bool
deriving DecidableEq

def initialSearchState : SearchState :=
  { searchQuery := "", suggestions := [], showSuggestions := false,
    error := none, loading := false }

/-- The guard of `handleSearch`: a request goes out iff `query.length < 2`
fails.  The query is used raw; the code never trims it. -/
def issuesRequest (query : String) : Bool :=
  !(decide (query.length < 2))

/-- Synchronous prefix of `handleSearch`: the short-query branch clears the
suggestions and returns without a request; otherwise loading is set, the
error cleared, and a request is issued. -/
def handleSearchStart (s : SearchState) (query : String) : SearchState × Bool :=
  if query.length < 2 then
    ({ s with suggestions := [] }, false)
  else
    ({ s with loading := true, error := none }, true)

/-- Length of the query after trimming surrounding whitespace (the spec
vocabulary; `handleSearch` itself never trims). -/
def trimmedLength (s : String) : Nat :=
  ((s.data.dropWhile Char.isWhitespace).reverse.dropWhile Char.isWhitespace).length

/-- Continuation of `handleSearch` run at response arrival: the non-ok branch
throws into the catch (error recorded, suggestions cleared); the OK branch
with results installs the filtered suggestions; otherwise suggestions are
cleared.  `finally` drops the loading flag.  No sequence number is
consulted: the update is unconditional. -/
def applyGeoResponse (s : SearchState) (r : GeoResponse) : SearchState :=
  if r.ok = false then
    { s with error := some (r.errorMessage.getD "Failed to fetch location data"),
             suggestions := [], loading := false }
  else if r.status = "OK" ∧ 0 < r.results.length then
    { s with suggestions := filteredResults r.results,
             showSuggestions := true, loading := false }
  else
    { s with suggestions := [], loading := false }

/-- Responses are applied in arrival order, whatever the issue order was. -/
def runResponses (s : SearchState) (rs : List GeoResponse) : SearchState :=
  rs.foldl applyGeoResponse s

/-! Debounce (handleInputChange).  A keystroke is a (time in ms, input text)
pair.  Each keystroke clears the pending timer and arms a new 500 ms one;
the timer of keystroke i survives only when no further keystroke arrives
within its window (or i is last). -/

def debounceMs : Nat := 500

/-- The queries whose debounce timer actually fires. -/
def firedQueries : List (Nat × String) → List String
  | [] => []
  | [k] => [k.2]
  | k1 :: k2 :: rest =>
      (if k1.1 + debounceMs ≤ k2.1 then [k1.2] else []) ++ firedQueries (k2 :: rest)

/-- Network calls issued by a keystroke trace: a fired timer runs
`handleSearch`, which requests only when the query passes the length guard. -/
def issuedRequests (ks : List (Nat × String)) : List String :=
  (firedQueries ks).filter issuesRequest

/-! Dashboard data orchestration (the dashboard page component). -/

inductive Pollutant
  | co | no2 | o3 | pm10 | pm25 | so2
deriving DecidableEq

/-- One entry of `latest_measurements`; `value := none` is a JSON null. -/
structure Measurement where
  value : Option ℚ
  unit : String
  display_name : String
deriving DecidableEq

/-- The six pollutant slots the merge touches; `none` means the key is
absent from `latest_measurements`. -/
structure Measurements where
  co : Option Measurement
  no2 : Option Measurement
  o3 : Option Measurement
  pm10 : Option Measurement
  pm25 : Option Measurement
  so2 : Option Measurement
deriving DecidableEq

def emptyMeasurements : Measurements :=
  { co := none, no2 := none, o3 := none, pm10 := none, pm25 := none, so2 := none }

def measAt (m : Measurements) : Pollutant → Option Measurement
  | .co => m.co
  | .no2 => m.no2
  | .o3 => m.o3
  | .pm10 => m.pm10
  | .pm25 => m.pm25
  | .so2 => m.so2

/-- `predictions.values`; the `aqi` key is read separately for the metadata. -/
structure PredVals where
  co : Option ℚ
  no2 : Option ℚ
  o3 : Option ℚ
  pm10 : Option ℚ
  pm25 : Option ℚ
  so2 : Option ℚ
  aqi : Option ℚ
deriving DecidableEq

def predAt (pv : PredVals) : Pollutant → Option ℚ
  | .co => pv.co
  | .no2 => pv.no2
  | .o3 => pv.o3
  | .pm10 => pv.pm10
  | .pm25 => pv.pm25
  | .so2 => pv.so2

structure Predictions where
  horizon_hours : Option Nat
  values : Option PredVals
deriving DecidableEq

structure AirQuality where
  latest_measurements : Option Measurements
  nearest_station : Option String
  available_sensors : Option (List String)
  search_radius_used_km : Option ℚ
deriving DecidableEq

structure WeatherDay where
  date : String
  tavg : Option ℚ
  tmin : Option ℚ
  tmax : Option ℚ
  prcp : Option ℚ
  wspd : Option ℚ
  pres : Option ℚ
  snow : Option ℚ
deriving DecidableEq

structure LocationData where
  latitude : Option ℚ
  longitude : Option ℚ
  nearest_station : Option String
  distance_to_station_km : Option ℚ
deriving DecidableEq

structure CombinedResponse where
  air_quality : Option AirQuality
  weather_data : Option (List WeatherDay)
  predictions : Option Predictions
  location : Option LocationData
deriving DecidableEq

/-- `combinedData.air_quality?.latest_measurements || {}`. -/
def baseLatest (r : CombinedResponse) : Measurements :=
  ((r.air_quality.bind (fun aq => aq.latest_measurements)).getD emptyMeasurements)

/-- `combinedData.predictions?.values`. -/
def predValuesOf (r : CombinedResponse) : Option PredVals :=
  r.predictions.bind (fun p => p.values)

/-- One slot of the merge object literal:
`lm.k ? { ...lm.k, value: pv.k ?? lm.k.value } : null`, with the later
`v !== null` filter folded in (a `null` slot is an absent slot). -/
def mergedEntry (m : Option Measurement) (p : Option ℚ) : Option Measurement :=
  match m with
  | none => none
  | some meas =>
      some { meas with value := match p with
                                | some x => some x
                                | none => meas.value }

/-- The six-branch merge of `fetchData`'s prediction pass. -/
def mergeMeasurements (lm : Measurements) (pv : PredVals) : Measurements :=
  { co := mergedEntry lm.co pv.co
    no2 := mergedEntry lm.no2 pv.no2
    o3 := mergedEntry lm.o3 pv.o3
    pm10 := mergedEntry lm.pm10 pv.pm10
    pm25 := mergedEntry lm.pm25 pv.pm25
    so2 := mergedEntry lm.so2 pv.so2 }

/-- The `latest` slot published by `fetchData`: merged when
`predictions?.values` is present, the raw measurements otherwise. -/
def finalLatest (r : CombinedResponse) : Measurements :=
  match predValuesOf r with
  | none => baseLatest r
  | some pv => mergeMeasurements (baseLatest r) pv

/-- `setIsPrediction(!!combinedData.predictions?.values)`. -/
def fetchIsPrediction (r : CombinedResponse) : Bool :=
  (predValuesOf r).isSome

structure TransformedAQ where
  latest : Measurements
  nearest_station : Option String
  available_sensors : Option (List String)
  search_radius : Option ℚ
  prediction_horizon : Option Nat
  aqi : Option ℚ
deriving DecidableEq

def transformAQ (r : CombinedResponse) : TransformedAQ :=
  { latest := finalLatest r
    nearest_station := r.air_quality.bind (fun aq => aq.nearest_station)
    available_sensors := r.air_quality.bind (fun aq => aq.available_sensors)
    search_radius := r.air_quality.bind (fun aq => aq.search_radius_used_km)
    prediction_horizon := r.predictions.bind (fun p => p.horizon_hours)
    aqi := (predValuesOf r).bind (fun pv => pv.aqi) }

structure WeatherPoint where
  timestamp : String
  date : String
  temperature : Option ℚ
  tempMin : Option ℚ
  tempMax : Option ℚ
  humidity : Option ℚ
  precipitation : Option ℚ
  windSpeed : Option ℚ
  pressure : Option ℚ
  snow : Option ℚ
deriving DecidableEq

def transformWeatherData (weatherArray : List WeatherDay) : List WeatherPoint :=
  weatherArray.map (fun day =>
    { timestamp := day.date, date := day.date, temperature := day.tavg,
      tempMin := day.tmin, tempMax := day.tmax, humidity := none,
      precipitation := day.prcp, windSpeed := day.wspd, pressure := day.pres,
      snow := day.snow })

/-- The dashboard component's data slots touched by one `fetchData` cycle. -/
structure DashboardState where
  airQualityData : Option TransformedAQ
  weatherData : Option (List WeatherPoint)
  locationInfo : Option LocationData
  isPrediction : Bool
  loading : Bool
deriving DecidableEq

/-- A completed `fetchData` call: the success path publishes the transformed
air quality, weather and location together; any failure lands in the catch,
which nulls all three; `finally` drops the loading flag. -/
def fetchDataApply (s : DashboardState) (result : Except String CombinedResponse) :
    DashboardState :=
  match result with
  | .error _ =>
      { s with airQualityData := none, weatherData := none,
               locationInfo := none, loading := false }
  | .ok cd =>
      { s with airQualityData := some (transformAQ cd),
               weatherData := some (transformWeatherData ((cd.weather_data).getD [])),
               locationInfo := cd.location,
               isPrediction := fetchIsPrediction cd,
               loading := false }

/-! Refresh triggering (handlePredictionChange, handleWeatherDaysChange,
and the `useEffect` keyed on `[currentLocation]`).  A fetch call records
the query parameters `fetchData` assembles; `hours := none` means no
`&hours=` parameter is appended. -/

structure FetchCall where
  lat : ℚ
  lng : ℚ
  radius : Nat
  weather_days : Nat
  hours : Option Nat
deriving DecidableEq

def mkFetchCall (lat lng : ℚ) (predictionHours : Option Nat) (weatherDays : Nat) :
    FetchCall :=
  { lat := lat, lng := lng, radius := 10000,
    weather_days := weatherDays, hours := predictionHours }

/-- `parseInt` of the select value; the empty string means real-time mode and
yields no hours parameter. -/
def phParam (value : String) : Option Nat :=
  if value = "" then none else value.toNat?

/-- Component state relevant to refresh scheduling.  The `captured` fields are
the values closed over by the `setInterval` callback created at the last run
of the effect (dependency list `[currentLocation]`); `timerEpoch` counts
recreations of the interval. -/
structure DashComp where
  currentLat : ℚ
  currentLng : ℚ
  predictionHours : String
  weatherDays : Nat
  capturedLat : ℚ
  capturedLng : ℚ
  capturedPH : String
  capturedWD : Nat
  timerEpoch : Nat
deriving DecidableEq

inductive DashEvent
  | selectLocation (lat lng : ℚ)
  | changePrediction (value : String)
  | changeWeatherDays (days : Nat)
  | tick
deriving DecidableEq

/-- One step of the refresh machine, returning the next state and the fetch
calls issued by the step.  A location change re-runs the effect: one
immediate fetch with the current options, which the recreated interval also
captures.  An option change runs its handler: one immediate fetch, no
effect re-run.  A timer tick replays the captured call. -/
def dashStep (s : DashComp) : DashEvent → DashComp × List FetchCall
  | .selectLocation lat lng =>
      ({ s with currentLat := lat, currentLng := lng,
                capturedLat := lat, capturedLng := lng,
                capturedPH := s.predictionHours, capturedWD := s.weatherDays,
                timerEpoch := s.timerEpoch + 1 },
       [mkFetchCall lat lng (phParam s.predictionHours) s.weatherDays])
  | .changePrediction v =>
      ({ s with predictionHours := v },
       [mkFetchCall s.currentLat s.currentLng (phParam v) s.weatherDays])
  | .changeWeatherDays d =>
      ({ s with weatherDays := d },
       [mkFetchCall s.currentLat s.currentLng (phParam s.predictionHours) d])
  | .tick =>
      (s, [mkFetchCall s.capturedLat s.capturedLng (phParam s.capturedPH) s.capturedWD])

/-! Concrete fixtures used by witnesses and counterexamples. -/

def compCountryUS : AddressComponent :=
  { long_name := "United States", short_name := "US", types := ["country", "political"] }

def compCountryCA : AddressComponent :=
  { long_name := "Canada", short_name := "CA", types := ["country", "political"] }

def compCountryFR : AddressComponent :=
  { long_name := "France", short_name := "FR", types := ["country", "political"] }

def resUS : GeoResult :=
  { formatted_address := "Los Angeles, CA, USA", place_id := "p1",
    lat := 34, lng := -118, address_components := [compCountryUS] }

def resCA : GeoResult :=
  { formatted_address := "Toronto, ON, Canada", place_id := "p2",
    lat := 43, lng := -79, address_components := [compCountryCA] }

def resFR : GeoResult :=
  { formatted_address := "Paris, France", place_id := "p3",
    lat := 48, lng := 2, address_components := [compCountryFR] }

/-- Response of the request issued second (sequence 2), arriving first. -/
def respNewer : GeoResponse :=
  { ok := true, status := "OK", results := [resUS], errorMessage := none }

/-- Response of the request issued first (sequence 1), arriving second. -/
def respStale : GeoResponse :=
  { ok := true, status := "OK", results := [resCA], errorMessage := none }

def mPm25 : Measurement := { value := some 7, unit := "ug/m3", display_name := "PM2.5" }

def mO3 : Measurement := { value := some 31, unit := "ppb", display_name := "O3" }

/-- A measurement present in the payload whose value slot is a JSON null. -/
def mNull : Measurement := { value := none, unit := "ug/m3", display_name := "PM2.5" }

def pvEx : PredVals :=
  { co := none, no2 := none, o3 := none, pm10 := none, pm25 := some 42,
    so2 := none, aqi := none }

def pvEmpty : PredVals :=
  { co := none, no2 := none, o3 := none, pm10 := none, pm25 := none,
    so2 := none, aqi := none }

def respEx : CombinedResponse :=
  { air_quality := some
      { latest_measurements := some
          { emptyMeasurements with pm25 := some mPm25, o3 := some mO3 },
        nearest_station := none, available_sensors := none,
        search_radius_used_km := none },
    weather_data := none,
    predictions := some { horizon_hours := some 1, values := some pvEx },
    location := none }

def respC6 : CombinedResponse :=
  { air_quality := some
      { latest_measurements := some { emptyMeasurements with pm25 := some mNull },
        nearest_station := none, available_sensors := none,
        search_radius_used_km := none },
    weather_data := none,
    predictions := some { horizon_hours := some 1, values := some pvEmpty },
    location := none }

/-- A concrete three-keystroke burst, 100 ms and 200 ms apart. -/
def burstTrace : List (Nat × String) := [(0, "t"), (100, "to"), (300, "tor")]

/-- The dashboard component's initial refresh-scheduling state: the Los
Angeles default location, real-time mode, a 7-day weather window, and the
interval created by the first effect run capturing those values. -/
def initialDashComp : DashComp :=
  { currentLat := 340522/10000, currentLng := -1182445/10000,
    predictionHours := "", weatherDays := 7,
    capturedLat := 340522/10000, capturedLng := -1182445/10000,
    capturedPH := "", capturedWD := 7, timerEpoch := 0 }

/-! Theorems. -/

/-- Claim C3: classify returns the first tier of the pollutant's catalog whose
inclusive upper bound admits the value; 12.0 is still "Good" and 12.01 is
"Moderate" for pm25; a value above every finite bound lands on the sentinel
tier with unbounded upper bound; a pollutant without a catalog of its own is
classified against the PM2.5 catalog. -/
theorem classify_spec (p : String) (v : ℚ) :
    (∃ pre post, thresholdsFor p = pre ++ getAlertLevel p v :: post ∧
        tierMatches v (getAlertLevel p v) = true ∧
        ∀ t ∈ pre, tierMatches v t = false) ∧
    (getAlertLevel "pm25" 12).level = "Good" ∧
    (getAlertLevel "pm25" (1201/100)).level = "Moderate" ∧
    ((∀ t ∈ thresholdsFor p, ∀ m : ℚ, t.max = some m → m < v) →
        (getAlertLevel p v).max = none) ∧
    (p ≠ "pm25" → p ≠ "no2" → getAlertLevel p v = getAlertLevel "pm25" v) := by
  have hsent : tierMatches v ⟨"Hazardous", none, "#5E1A1A"⟩ = true := rfl
  have hmem : (⟨"Hazardous", none, "#5E1A1A"⟩ : Tier) ∈ thresholdsFor p := by
    unfold thresholdsFor AQI_THRESHOLDS
    split_ifs <;> simp [pm25Thresholds, no2Thresholds]
  have hex : ((thresholdsFor p).find? (tierMatches v)).isSome = true :=
    List.find?_isSome.mpr ⟨_, hmem, hsent⟩
  obtain ⟨b, hb⟩ := Option.isSome_iff_exists.mp hex
  have hga : getAlertLevel p v = b := by unfold getAlertLevel; rw [hb]
  obtain ⟨hpb, pre, post, heq, hall⟩ := List.find?_eq_some.mp hb
  refine ⟨⟨pre, post, ?_, ?_, ?_⟩, ?_, ?_, ?_, ?_⟩
  · rw [hga]; exact heq
  · rw [hga]; exact hpb
  · intro t ht
    have := hall t ht
    simpa using this
  · norm_num [getAlertLevel, thresholdsFor, AQI_THRESHOLDS, pm25Thresholds,
      tierMatches, List.find?]
  · norm_num [getAlertLevel, thresholdsFor, AQI_THRESHOLDS, pm25Thresholds,
      tierMatches, List.find?]
  · intro hbound
    rw [hga]
    cases hmb : b.max with
    | none => rfl
    | some m =>
        exfalso
        have hble : v ≤ m := by
          have hpb2 := hpb
          unfold tierMatches at hpb2
          rw [hmb] at hpb2
          exact of_decide_eq_true hpb2
        have hbmem : b ∈ thresholdsFor p := by
          rw [heq]
          exact List.mem_append_right _ (List.mem_cons_self _ _)
        have hlt := hbound b hbmem m hmb
        linarith
  · intro h1 h2
    have e1 : thresholdsFor p = pm25Thresholds := by
      simp [thresholdsFor, AQI_THRESHOLDS, h1, h2]
    have e2 : thresholdsFor "pm25" = pm25Thresholds := by
      simp [thresholdsFor, AQI_THRESHOLDS]
    unfold getAlertLevel
    rw [e1, e2]

/-- Witness for C3 at pollutant "o3" (no catalog of its own) and concrete
values. -/
theorem classify_spec_witness :
    (getAlertLevel "o3" 1000000).max = none ∧
    getAlertLevel "o3" 9 = getAlertLevel "pm25" 9 := by
  refine ⟨(classify_spec "o3" 1000000).2.2.2.1 ?_,
          (classify_spec "o3" 9).2.2.2.2 (by decide) (by decide)⟩
  simp [thresholdsFor, AQI_THRESHOLDS, pm25Thresholds]
  norm_num

/-- Claim C5: every suggestion surfaced by handleSearch carries a resolved
country component in the allow-list, off-list results are dropped from the
sequence itself, and after filtering at most the 5 top upstream matches
remain (in upstream order). -/
theorem country_filter_allowlist (rs : List GeoResult) :
    (∀ r ∈ filteredResults rs, ∃ c, countryComponent r = some c ∧
        c.short_name ∈ NORTH_AMERICAN_COUNTRIES) ∧
    List.Sublist (filteredResults rs) rs ∧
    (filteredResults rs).length ≤ 5 := by
  refine ⟨?_, ?_, ?_⟩
  · intro r hr
    have hr2 : r ∈ rs.filter isNorthAmerican := List.take_subset _ _ hr
    have hp : isNorthAmerican r = true := (List.mem_filter.mp hr2).2
    unfold isNorthAmerican at hp
    cases hc : countryComponent r with
    | none => rw [hc] at hp; simp at hp
    | some c =>
        rw [hc] at hp
        refine ⟨c, rfl, ?_⟩
        simpa using hp
  · exact (List.take_sublist _ _).trans (List.filter_sublist _)
  · calc (filteredResults rs).length = min 5 (rs.filter isNorthAmerican).length := by
          unfold filteredResults; rw [List.length_take]
      _ ≤ 5 := Nat.min_le_left _ _

/-- Witness for C5 on a concrete upstream result list containing a French
result. -/
theorem country_filter_allowlist_witness :
    ∃ c, countryComponent resUS = some c ∧
      c.short_name ∈ NORTH_AMERICAN_COUNTRIES :=
  (country_filter_allowlist [resUS, resFR]).1 resUS (by decide)

/-- Claim C4: a failed combined-endpoint refresh resets the air-quality data,
the weather data and the location info to the no-data state together; the
error path never nulls one of the three without the others. -/
theorem fetch_error_resets_view (s : DashboardState) (msg : String) :
    (fetchDataApply s (Except.error msg)).airQualityData = none ∧
    (fetchDataApply s (Except.error msg)).weatherData = none ∧
    (fetchDataApply s (Except.error msg)).locationInfo = none :=
  ⟨rfl, rfl, rfl⟩

/-- `mergedEntry` yields an absent slot exactly for an absent measurement. -/
theorem mergedEntry_eq_none (m : Option Measurement) (p : Option ℚ) :
    mergedEntry m p = none ↔ m = none := by
  cases m <;> simp [mergedEntry]

/-- Claim C1: in prediction mode, a pollutant present in both the latest
measurements and the prediction values gets the predicted value with its
unit and display metadata unchanged; a pollutant with no prediction keeps
its measured entry; a pollutant absent from the measurements stays absent;
and isPrediction is set. -/
theorem prediction_overlay_spec (r : CombinedResponse) (pv : PredVals)
    (hpv : predValuesOf r = some pv) :
    (∀ k m x, measAt (baseLatest r) k = some m → predAt pv k = some x →
        measAt (finalLatest r) k = some { m with value := some x }) ∧
    (∀ k m, measAt (baseLatest r) k = some m → predAt pv k = none →
        measAt (finalLatest r) k = some m) ∧
    (∀ k, measAt (baseLatest r) k = none → measAt (finalLatest r) k = none) ∧
    fetchIsPrediction r = true := by
  have hf : finalLatest r = mergeMeasurements (baseLatest r) pv := by
    unfold finalLatest; rw [hpv]
  refine ⟨?_, ?_, ?_, ?_⟩
  · intro k m x h1 h2
    rw [hf]
    cases k <;>
      simp only [measAt, predAt, mergeMeasurements] at h1 h2 ⊢ <;>
      rw [h1, h2] <;> rfl
  · intro k m h1 h2
    rw [hf]
    cases k <;>
      simp only [measAt, predAt, mergeMeasurements] at h1 h2 ⊢ <;>
      rw [h1, h2] <;> rfl
  · intro k h1
    rw [hf]
    cases k <;>
      simp only [measAt, mergeMeasurements] at h1 ⊢ <;>
      rw [(mergedEntry_eq_none _ _).mpr h1]
  · simp [fetchIsPrediction, hpv]

/-- Witness for C1 on a concrete combined response: pm25 is overlaid, o3 is
kept, co stays absent, isPrediction is true. -/
theorem prediction_overlay_spec_witness :
    measAt (finalLatest respEx) Pollutant.pm25 =
      some { mPm25 with value := some (42 : ℚ) } ∧
    measAt (finalLatest respEx) Pollutant.o3 = some mO3 ∧
    measAt (finalLatest respEx) Pollutant.co = none ∧
    fetchIsPrediction respEx = true := by
  have h := prediction_overlay_spec respEx pvEx rfl
  exact ⟨h.1 Pollutant.pm25 mPm25 42 rfl rfl,
         h.2.1 Pollutant.o3 mO3 rfl rfl,
         h.2.2.1 Pollutant.co rfl,
         h.2.2.2⟩

/-- Counterexample to C6: a measurement present with a null value and not
covered by the predictions survives the merge pass and is published with a
null value — the filter only removes slots whose whole entry is null. -/
theorem null_value_survives_merge :
    fetchIsPrediction respC6 = true ∧
    measAt (finalLatest respC6) Pollutant.pm25 = some mNull ∧
    mNull.value = none :=
  ⟨rfl, rfl, rfl⟩

/-- Claim C6 as amended: the post-merge filter drops exactly the entries whose
measurement was absent from latest_measurements; an entry with a present
measurement object is always retained, even when its value slot is null. -/
theorem merge_drops_exactly_absent (r : CombinedResponse) (pv : PredVals)
    (hpv : predValuesOf r = some pv) (k : Pollutant) :
    measAt (finalLatest r) k = none ↔ measAt (baseLatest r) k = none := by
  have hf : finalLatest r = mergeMeasurements (baseLatest r) pv := by
    unfold finalLatest; rw [hpv]
  rw [hf]
  cases k <;> simp only [measAt, mergeMeasurements, mergedEntry_eq_none]

/-- Witness for the amended C6. -/
theorem merge_drops_exactly_absent_witness :
    measAt (finalLatest respC6) Pollutant.co = none ↔
      measAt (baseLatest respC6) Pollutant.co = none :=
  merge_drops_exactly_absent respC6 pvEmpty rfl Pollutant.co

/-- Counterexample to C2: handleSearch tracks no request sequence number; a
stale response (issued first, arriving second) overwrites the suggestion
list that the newer response had installed. -/
theorem stale_response_overwrites :
    ((runResponses initialSearchState [respNewer, respStale]).suggestions.map
        (fun r => r.place_id)) = ["p2"] ∧
    ((applyGeoResponse initialSearchState respNewer).suggestions.map
        (fun r => r.place_id)) = ["p1"] ∧
    (["p2"] : List String) ≠ ["p1"] :=
  ⟨rfl, rfl, by decide⟩

/-- Claim C2 as amended: responses are applied unconditionally in arrival
order, so after any burst of overlapping requests the suggestion list equals
the one computed from the last-arriving successful response, whatever the
issue order was. -/
theorem last_arrival_wins (s : SearchState) (prior : List GeoResponse)
    (r : GeoResponse) (hok : r.ok = true) (hst : r.status = "OK")
    (hres : 0 < r.results.length) :
    (runResponses s (prior ++ [r])).suggestions = filteredResults r.results := by
  unfold runResponses
  rw [List.foldl_append]
  show (applyGeoResponse _ r).suggestions = _
  unfold applyGeoResponse
  rw [hok]
  simp [hst, hres]

/-- Witness for the amended C2. -/
theorem last_arrival_wins_witness :
    (runResponses initialSearchState ([respNewer] ++ [respStale])).suggestions =
      filteredResults respStale.results :=
  last_arrival_wins initialSearchState [respNewer] respStale rfl rfl (by decide)

/-- Counterexample to C7: the guard uses the raw query length, not the
trimmed length: a two-space query has trimmed length 0 yet passes the guard
and issues a network request. -/
theorem short_trimmed_query_still_requests :
    trimmedLength "  " = 0 ∧
    (handleSearchStart initialSearchState "  ").2 = true ∧
    issuesRequest "  " = true :=
  ⟨by decide, rfl, rfl⟩

/-- Claim C7 as amended: for every query whose raw (untrimmed) length is
shorter than 2, handleSearch issues no request and clears the suggestion
list. -/
theorem short_query_no_request (s : SearchState) (q : String)
    (h : q.length < 2) :
    (handleSearchStart s q).2 = false ∧
    (handleSearchStart s q).1.suggestions = [] := by
  unfold handleSearchStart
  rw [if_pos h]
  exact ⟨rfl, rfl⟩

/-- Witness for the amended C7. -/
theorem short_query_no_request_witness :
    (handleSearchStart initialSearchState "a").2 = false ∧
    (handleSearchStart initialSearchState "a").1.suggestions = [] :=
  short_query_no_request initialSearchState "a" (by decide)

/-- In a burst whose consecutive keystrokes arrive inside the debounce
window, only the final keystroke's timer survives. -/
theorem firedQueries_burst (ks : List (Nat × String))
    (hch : ks.Chain' (fun a b => b.1 < a.1 + debounceMs)) (hne : ks ≠ []) :
    firedQueries ks = [(ks.getLast hne).2] := by
  match ks, hne with
  | [k], _ => rfl
  | k1 :: k2 :: rest, _ =>
    rw [List.chain'_cons] at hch
    have ih := firedQueries_burst (k2 :: rest) hch.2 (List.cons_ne_nil _ _)
    show (if k1.1 + debounceMs ≤ k2.1 then [k1.2] else []) ++
        firedQueries (k2 :: rest) = _
    rw [if_neg (by omega), ih, List.nil_append,
      List.getLast_cons (List.cons_ne_nil k2 rest)]

/-- Claim C8: within a burst of keystrokes less than 500 ms apart, every
keystroke cancels the pending timer, so at most one network call is issued
for the whole burst and it carries the final query text. -/
theorem debounce_single_request (ks : List (Nat × String)) (hne : ks ≠ [])
    (hburst : ks.Chain' (fun a b => b.1 < a.1 + debounceMs)) :
    firedQueries ks = [(ks.getLast hne).2] ∧
    (issuedRequests ks).length ≤ 1 ∧
    ∀ q ∈ issuedRequests ks, q = (ks.getLast hne).2 := by
  have hf := firedQueries_burst ks hburst hne
  refine ⟨hf, ?_, ?_⟩
  · unfold issuedRequests
    rw [hf]
    exact (List.length_filter_le _ _).trans (by simp)
  · intro q hq
    unfold issuedRequests at hq
    rw [hf] at hq
    simpa using (List.mem_filter.mp hq).1

/-- Witness for C8 on a concrete burst. -/
theorem debounce_single_request_witness :
    firedQueries burstTrace = [(burstTrace.getLast (by decide)).2] ∧
    (issuedRequests burstTrace).length ≤ 1 := by
  have h := debounce_single_request burstTrace (by decide)
    (by simp [burstTrace, List.chain'_cons, debounceMs])
  exact ⟨h.1, h.2.1⟩

/-- Claim C9: changing the prediction horizon or the weather window alone
triggers exactly one immediate fetch — carrying the hours parameter when a
horizon is set — and leaves the polling interval in place; only a location
change recreates the interval. -/
theorem option_change_refetch (s : DashComp) (v : String) (d : Nat)
    (a b : ℚ) :
    (dashStep s (DashEvent.changePrediction v)).2 =
      [mkFetchCall s.currentLat s.currentLng (phParam v) s.weatherDays] ∧
    (v ≠ "" → (mkFetchCall s.currentLat s.currentLng (phParam v)
        s.weatherDays).hours = v.toNat?) ∧
    (dashStep s (DashEvent.changePrediction v)).1.timerEpoch = s.timerEpoch ∧
    (dashStep s (DashEvent.changeWeatherDays d)).2 =
      [mkFetchCall s.currentLat s.currentLng (phParam s.predictionHours) d] ∧
    (dashStep s (DashEvent.changeWeatherDays d)).1.timerEpoch = s.timerEpoch ∧
    (dashStep s DashEvent.tick).1.timerEpoch = s.timerEpoch ∧
    (dashStep s (DashEvent.selectLocation a b)).1.timerEpoch =
      s.timerEpoch + 1 := by
  refine ⟨rfl, ?_, rfl, rfl, rfl, rfl, rfl⟩
  intro hv
  show phParam v = v.toNat?
  unfold phParam
  rw [if_neg hv]

/-- Witness for C9 at horizon "1". -/
theorem option_change_refetch_witness :
    (dashStep initialDashComp (DashEvent.changePrediction "1")).2 =
      [mkFetchCall initialDashComp.currentLat initialDashComp.currentLng
        (phParam "1") initialDashComp.weatherDays] ∧
    (mkFetchCall initialDashComp.currentLat initialDashComp.currentLng
        (phParam "1") initialDashComp.weatherDays).hours = ("1").toNat? := by
  have h := option_change_refetch initialDashComp "1" 7 0 0
  exact ⟨h.1, h.2.1 (by decide)⟩

/-- Claim C10: a polling tick fetches with the option values captured by the
interval closure at the last location change; option changes update neither
the captured values nor the parameters of subsequent ticks, and only a
location change re-captures them. -/
theorem tick_uses_captured_options (s : DashComp) (v : String) (d : Nat) :
    (dashStep s DashEvent.tick).2 =
      [mkFetchCall s.capturedLat s.capturedLng (phParam s.capturedPH)
        s.capturedWD] ∧
    (dashStep s (DashEvent.changePrediction v)).1.capturedPH = s.capturedPH ∧
    (dashStep s (DashEvent.changePrediction v)).1.capturedWD = s.capturedWD ∧
    (dashStep s (DashEvent.changeWeatherDays d)).1.capturedPH = s.capturedPH ∧
    (dashStep s (DashEvent.changeWeatherDays d)).1.capturedWD = s.capturedWD ∧
    (dashStep (dashStep s (DashEvent.changePrediction v)).1 DashEvent.tick).2 =
      [mkFetchCall s.capturedLat s.capturedLng (phParam s.capturedPH)
        s.capturedWD] ∧
    (∀ a b : ℚ,
      (dashStep s (DashEvent.selectLocation a b)).1.capturedPH =
        s.predictionHours ∧
      (dashStep s (DashEvent.selectLocation a b)).1.capturedWD =
        s.weatherDays) :=
  ⟨rfl, rfl, rfl, rfl, rfl, rfl, fun _ _ => ⟨rfl, rfl⟩⟩

end FisherX
